import Mathlib

/-!
Verification of the CRUD request-handling contract of `crudster.py`
(a tornado + motor REST service over a single MongoDB collection).

The embedding models the request handler at the JSON level: request
bodies arrive already run through `tornado.escape.json_decode`
(`none` stands for a body that is not well-formed JSON), responses
are a status code plus the JSON value the handler writes, and the
MongoDB collection is an insertion-ordered list of stored envelopes
`{uuid, document}`.  The `uuid4()` random source is modelled as a
deterministic supply `nextUuid` carried in the server state; each
generated identifier is a 128-bit value with the version nibble `4`
and variant nibble `8`, as `uuid.uuid4()` guarantees.
-/

/-- JSON values, as produced by `json.loads` / consumed by `json.dumps`.
Numbers are modelled as integers; no claim depends on number semantics. -/
inductive Json where
  | null
  | bool (b : Bool)
  | num (n : Int)
  | str (s : String)
  | arr (elems : List Json)
  | obj (fields : List (String × Json))

namespace Json

/-- Python `type(x) is dict` test used by `write_dict`. -/
def isObj : Json → Bool
  | .obj _ => true
  | _ => false

/-- First value bound to a key in a JSON object, `none` otherwise
(Python dict lookup on the dicts the handler builds). -/
def lookup (j : Json) (k : String) : Option Json :=
  match j with
  | .obj fields => (fields.find? (fun p => p.1 == k)).map Prod.snd
  | _ => none

end Json

/-! ### Hexadecimal encoding of identifiers (`uuid.UUID.hex` / `UUID(str)`) -/

/-- Lower-case hexadecimal digit characters, as `uuid.UUID.hex` prints them. -/
def hexChar (d : Nat) : Char :=
  if d < 10 then Char.ofNat (48 + d) else Char.ofNat (87 + d)

/-- Value of a hexadecimal digit character accepted by `uuid.UUID`
(lower-case, as the route pattern `[0-9a-f]` admits). -/
def hexVal (c : Char) : Option Nat :=
  if 48 ≤ c.toNat ∧ c.toNat ≤ 57 then some (c.toNat - 48)
  else if 97 ≤ c.toNat ∧ c.toNat ≤ 102 then some (c.toNat - 87)
  else none

/-- Character is a hexadecimal digit. -/
def isHexDigit (c : Char) : Bool := (hexVal c).isSome

/-- Little-endian list of the low `w` base-16 digits of `n`. -/
def hexDigitsLE : Nat → Nat → List Nat
  | 0, _ => []
  | w + 1, n => n % 16 :: hexDigitsLE w (n / 16)

/-- Big-endian fixed-width hexadecimal character string of `n`,
the canonical form `uuid.UUID.hex` produces for 128-bit identifiers. -/
def uuidHexChars (n : Nat) : List Char :=
  ((hexDigitsLE 32 n).reverse).map hexChar

/-- Canonical 32-character hexadecimal string of identifier `n`
(`uuid.UUID.hex`, the form `_JSONEncoder.default` emits). -/
def uuidHex (n : Nat) : String := ⟨uuidHexChars n⟩

/-- Big-endian hexadecimal parse with accumulator. -/
def parseHexAcc : List Char → Nat → Option Nat
  | [], acc => some acc
  | c :: cs, acc =>
    match hexVal c with
    | some d => parseHexAcc cs (16 * acc + d)
    | none => none

/-- Big-endian hexadecimal parse of a character list. -/
def parseHex? (cs : List Char) : Option Nat := parseHexAcc cs 0

/-- Python exceptions the handler code can raise. -/
inductive PyExc where
  | httpError (status : Nat)
  | valueError
  | typeError
deriving Repr, DecidableEq

/-- Model of the `uuid.UUID` constructor applied to a tornado path
argument: `UUID(None)` raises `TypeError`; a string must be exactly 32
hexadecimal digits (the dash-free form the route supplies), anything
else raises `ValueError`. -/
def pyUUID : Option String → Except PyExc Nat
  | none => .error .typeError
  | some s =>
    if s.data.length = 32 then
      match parseHex? s.data with
      | some n => .ok n
      | none => .error .valueError
    else .error .valueError

/-- Model of `uuid.uuid4()`: the `k`-th identifier the random source
yields.  `16 ^ 15 * 262152 = 0x40008 * 16^15` places digit `4` at hex
position 12 (the version nibble) and digit `8` at hex position 16 (the
variant nibble), exactly the bits `uuid4` fixes; the remaining low 15
hex digits carry the fresh value. -/
def uuid4Model (k : Nat) : Nat := 16 ^ 15 * 262152 + k % 16 ^ 15

/-! ### Server state and verb handlers (`CRUDRequestHandler`) -/

/-- One stored envelope, as `post` inserts it:
`dict(document=document, uuid=uuid)`. -/
structure Resource where
  uuid : Nat
  document : Json

/-- Server state: the MongoDB collection in insertion order, plus the
supply index of the `uuid4()` random source. -/
structure ServerState where
  collection : List Resource
  nextUuid : Nat

/-- State of a freshly started service (empty collection). -/
def initState : ServerState := { collection := [], nextUuid := 0 }

/-- Truthiness of a tornado path argument, as `if uuid:` tests it:
`None` and the empty string are falsy. -/
def optStrTruthy : Option String → Bool
  | none => false
  | some s => s ≠ ""

/-- `find_one_and_update({"uuid": u}, {"$set": {"document": d}})`:
replace the `document` field of the first matching envelope; returns
whether a match was found (the pre-image envelope is a non-empty dict,
hence truthy exactly when found). -/
def replaceOne : List Resource → Nat → Json → List Resource × Bool
  | [], _, _ => ([], false)
  | r :: rs, u, d =>
    if r.uuid == u then (⟨r.uuid, d⟩ :: rs, true)
    else
      let (rs', found) := replaceOne rs u d
      (r :: rs', found)

namespace CRUDRequestHandler

/-- Model of `decode_and_validate_document`: `escape.json_decode`
raises `ValueError` (a `json.JSONDecodeError`) when the body is not
well-formed JSON; `validate_document` is a no-op in the base class. -/
def decodeAndValidate (body : Option Json) : Except PyExc Json :=
  match body with
  | none => .error .valueError
  | some d => .ok d

/-- Model of `write_dict` applied to one positional argument: only a
value of exact type `dict` is accepted, anything else raises
`ValueError`. -/
def writeDictOne (j : Json) : Except PyExc Json :=
  if j.isObj then .ok j else .error .valueError

/-- `post`: reject a client-supplied identifier with 400, otherwise
generate a fresh `uuid4()`, decode and validate the body, append the
envelope to the collection and answer `{"uuid": <hex>}`.
(`create_indices` only touches store indices, not the collection
contents, so it has no effect in this model.) -/
def post (st : ServerState) (uuid : Option String) (body : Option Json) :
    Except PyExc (ServerState × Json) :=
  if optStrTruthy uuid then .error (.httpError 400)
  else
    let u := uuid4Model st.nextUuid
    match decodeAndValidate body with
    | .error e => .error e
    | .ok document =>
      .ok ({ collection := st.collection ++ [⟨u, document⟩],
             nextUuid := st.nextUuid + 1 },
           Json.obj [("uuid", Json.str (uuidHex u))])

/-- `get_one_document`: `find_one({"uuid": UUID(uuid)})` returns the
first stored envelope with that identifier; found documents go through
`write_dict`, absence raises 404. -/
def getOneDocument (st : ServerState) (uuid : String) :
    Except PyExc (ServerState × Json) :=
  match pyUUID (some uuid) with
  | .error e => .error e
  | .ok u =>
    match st.collection.find? (fun r => r.uuid == u) with
    | some r =>
      match writeDictOne r.document with
      | .ok b => .ok (st, b)
      | .error e => .error e
    | none => .error (.httpError 404)

/-- `get_many_documents`: iterate the cursor over the whole collection
building `documents[result["uuid"].hex] = result["document"]`. -/
def getManyDocuments (st : ServerState) : Except PyExc (ServerState × Json) :=
  .ok (st, Json.obj (st.collection.map (fun r => (uuidHex r.uuid, r.document))))

/-- `get`: dispatch on presence of the identifier path argument. -/
def get (st : ServerState) (uuid : Option String) :
    Except PyExc (ServerState × Json) :=
  if optStrTruthy uuid then getOneDocument st (uuid.getD "")
  else getManyDocuments st

/-- `put`: 400 without an identifier; otherwise decode and validate the
body, replace the document at `UUID(uuid)`, answer `{}` on success and
404 when no resource matched. -/
def put (st : ServerState) (uuid : Option String) (body : Option Json) :
    Except PyExc (ServerState × Json) :=
  if optStrTruthy uuid then
    match decodeAndValidate body with
    | .error e => .error e
    | .ok document =>
      match pyUUID uuid with
      | .error e => .error e
      | .ok u =>
        let (coll', found) := replaceOne st.collection u document
        if found then .ok ({ st with collection := coll' }, Json.obj [])
        else .error (.httpError 404)
  else .error (.httpError 400)

/-- `delete`: `delete_one({"uuid": UUID(uuid)})` removes the first
matching envelope; `deleted_count == 1` answers `{}`, otherwise 404.
Note `UUID(uuid)` is applied unconditionally, so a missing identifier
path argument reaches `UUID(None)`. -/
def delete (st : ServerState) (uuid : Option String) :
    Except PyExc (ServerState × Json) :=
  match pyUUID uuid with
  | .error e => .error e
  | .ok u =>
    if st.collection.any (fun r => r.uuid == u) then
      .ok ({ st with collection := st.collection.eraseP (fun r => r.uuid == u) },
           Json.obj [])
    else .error (.httpError 404)

end CRUDRequestHandler

/-! ### Routing and the tornado response layer -/

/-- HTTP methods the handler implements. -/
inductive Method where
  | post
  | get
  | put
  | delete
deriving Repr, DecidableEq

/-- An HTTP response: status code plus the JSON body written. -/
structure Response where
  status : Nat
  body : Json

/-- Standard reason phrases tornado attaches to the statuses this
service produces. -/
def reasonPhrase (status : Nat) : String :=
  if status = 400 then "Bad Request"
  else if status = 404 then "Not Found"
  else if status = 500 then "Internal Server Error"
  else "Unknown"

/-- Body produced by `write_error` outside debug mode:
`write_dict(status_code=status_code, reason=self._reason)`. -/
def errorBody (status : Nat) : Json :=
  Json.obj [("status_code", Json.num status), ("reason", Json.str (reasonPhrase status))]

/-- Match of the identifier part of the route pattern
`[0-9a-f]{12}4[0-9a-f]{3}[89ab][0-9a-f]{15}`: 32 lower-case hex
characters with `4` at index 12 and one of `89ab` at index 16. -/
def isUuid4Hex (s : String) : Bool :=
  let cs := s.data
  cs.length == 32 && cs.all isHexDigit && cs[12]? == some '4' &&
    (cs[16]? == some '8' || cs[16]? == some '9' ||
     cs[16]? == some 'a' || cs[16]? == some 'b')

/-- Routing of the single rule
`(r"{prefix}([0-9a-f]{12}4[0-9a-f]{3}[89ab][0-9a-f]{15})?", CRUDRequestHandler)`
applied to the path remainder after the prefix (tornado anchors the
pattern at both ends): `some pid` dispatches to the handler with path
argument `pid`, `none` is a routing mismatch. -/
def routeCapture (tail : String) : Option (Option String) :=
  if tail = "" then some none
  else if isUuid4Hex tail then some (some tail) else none

/-- Tornado's exception handling around a verb handler: a normal
return responds 200 with the written body, `HTTPError(c)` responds `c`,
and any other exception responds 500, both via `write_error`. -/
def runVerb (st : ServerState) (r : Except PyExc (ServerState × Json)) :
    ServerState × Response :=
  match r with
  | .ok (st', b) => (st', ⟨200, b⟩)
  | .error (.httpError c) => (st, ⟨c, errorBody c⟩)
  | .error _ => (st, ⟨500, errorBody 500⟩)

/-- Dispatch a routed request to the verb handler named by the method. -/
def dispatch (st : ServerState) (m : Method) (pid : Option String)
    (body : Option Json) : ServerState × Response :=
  match m with
  | .post => runVerb st (CRUDRequestHandler.post st pid body)
  | .get => runVerb st (CRUDRequestHandler.get st pid)
  | .put => runVerb st (CRUDRequestHandler.put st pid body)
  | .delete => runVerb st (CRUDRequestHandler.delete st pid)

/-- Full request handling: route the path remainder, then dispatch;
a route mismatch is tornado's 404 (its body is the framework's default
error response, abstracted here as the 404 error body: only the status
of a routing mismatch is significant to the handler contract). -/
def handleRequest (st : ServerState) (m : Method) (tail : String)
    (body : Option Json) : ServerState × Response :=
  match routeCapture tail with
  | some pid => dispatch st m pid body
  | none => (st, ⟨404, errorBody 404⟩)

/-- Well-formed server state: stored identifiers are pairwise distinct
and every one of them was produced by the `uuid4()` supply. -/
def WF (st : ServerState) : Prop :=
  (st.collection.map Resource.uuid).Nodup ∧
  ∀ r ∈ st.collection, ∃ k, k < st.nextUuid ∧ r.uuid = uuid4Model k

/-- Run a sequence of POSTs of the given documents, each to the bare
prefix with a well-formed JSON body (such POSTs always succeed). -/
def postMany (st : ServerState) (ds : List Json) : ServerState :=
  ds.foldl (fun s d => (handleRequest s .post "" (some d)).1) st

/-! ### Facts about the hexadecimal encoding -/

theorem hexVal_hexChar : ∀ d, d < 16 → hexVal (hexChar d) = some d := by decide

theorem isHexDigit_hexChar (d : Nat) (h : d < 16) : isHexDigit (hexChar d) = true := by
  simp [isHexDigit, hexVal_hexChar d h]

theorem hexDigitsLE_length (w n : Nat) : (hexDigitsLE w n).length = w := by
  induction w generalizing n with
  | zero => rfl
  | succ w ih => simp [hexDigitsLE, ih]

theorem hexDigitsLE_lt (w n : Nat) : ∀ d ∈ hexDigitsLE w n, d < 16 := by
  induction w generalizing n with
  | zero => simp [hexDigitsLE]
  | succ w ih =>
    simp only [hexDigitsLE, List.mem_cons]
    rintro d (rfl | hd)
    · omega
    · exact ih _ d hd

theorem hexDigitsLE_append (w1 w2 n : Nat) :
    hexDigitsLE (w1 + w2) n =
      hexDigitsLE w1 (n % 16 ^ w1) ++ hexDigitsLE w2 (n / 16 ^ w1) := by
  induction w1 generalizing n with
  | zero => simp [hexDigitsLE]
  | succ w ih =>
    have h1 : n % 16 ^ (w + 1) % 16 = n % 16 := by rw [pow_succ', Nat.mod_mul]; omega
    have h2 : n % 16 ^ (w + 1) / 16 = n / 16 % 16 ^ w := by rw [pow_succ', Nat.mod_mul]; omega
    have h3 : n / 16 ^ (w + 1) = n / 16 / 16 ^ w := by rw [Nat.div_div_eq_div_mul, pow_succ']
    have hadd : w + 1 + w2 = (w + w2) + 1 := by omega
    rw [hadd]
    simp only [hexDigitsLE, h1, h2, h3, ih, List.cons_append]

theorem foldl_hexDigitsLE_reverse (w n acc : Nat) :
    ((hexDigitsLE w n).reverse).foldl (fun a d => 16 * a + d) acc =
      acc * 16 ^ w + n % 16 ^ w := by
  induction w generalizing n acc with
  | zero => simp [hexDigitsLE, Nat.mod_one]
  | succ w ih =>
    have h1 : n % 16 ^ (w + 1) = 16 * (n / 16 % 16 ^ w) + n % 16 := by
      rw [pow_succ', Nat.mod_mul]; omega
    simp only [hexDigitsLE, List.reverse_cons, List.foldl_append, ih, List.foldl_cons,
      List.foldl_nil, h1]
    ring

theorem parseHexAcc_map (ds : List Nat) (acc : Nat) (h : ∀ d ∈ ds, d < 16) :
    parseHexAcc (ds.map hexChar) acc = some (ds.foldl (fun a d => 16 * a + d) acc) := by
  induction ds generalizing acc with
  | nil => rfl
  | cons d ds ih =>
    have hd : d < 16 := h d (List.mem_cons_self d ds)
    simp only [List.map_cons, parseHexAcc, hexVal_hexChar d hd, List.foldl_cons]
    exact ih _ (fun x hx => h x (List.mem_cons_of_mem d hx))

theorem parseHex_uuidHexChars (n : Nat) (h : n < 16 ^ 32) :
    parseHex? (uuidHexChars n) = some n := by
  unfold parseHex? uuidHexChars
  rw [parseHexAcc_map _ 0 (fun d hd => hexDigitsLE_lt 32 n d (List.mem_reverse.mp hd))]
  rw [foldl_hexDigitsLE_reverse, Nat.zero_mul, Nat.zero_add, Nat.mod_eq_of_lt h]

theorem uuidHexChars_length (n : Nat) : (uuidHexChars n).length = 32 := by
  simp [uuidHexChars, hexDigitsLE_length]

theorem pyUUID_uuidHex (n : Nat) (h : n < 16 ^ 32) :
    pyUUID (some (uuidHex n)) = .ok n := by
  show (if (uuidHex n).data.length = 32 then
          match parseHex? (uuidHex n).data with
          | some m => Except.ok m
          | none => Except.error PyExc.valueError
        else Except.error PyExc.valueError) = Except.ok n
  rw [show (uuidHex n).data = uuidHexChars n from rfl]
  rw [if_pos (uuidHexChars_length n), parseHex_uuidHexChars n h]

theorem uuid4Model_lt (k : Nat) : uuid4Model k < 16 ^ 32 := by
  have h1 : k % 16 ^ 15 < 16 ^ 15 := Nat.mod_lt _ (by norm_num)
  have h2 : (16 : Nat) ^ 15 = 1152921504606846976 := by norm_num
  have h3 : (16 : Nat) ^ 32 = 340282366920938463463374607431768211456 := by norm_num
  unfold uuid4Model
  omega

theorem uuid4Model_mod (k : Nat) : uuid4Model k % 16 ^ 15 = k % 16 ^ 15 := by
  unfold uuid4Model
  rw [Nat.mul_add_mod, Nat.mod_mod_of_dvd _ dvd_rfl]

theorem uuid4Model_div (k : Nat) : uuid4Model k / 16 ^ 15 = 262152 := by
  unfold uuid4Model
  rw [Nat.mul_add_div (by norm_num), Nat.div_eq_of_lt (Nat.mod_lt _ (by norm_num)), Nat.add_zero]

theorem uuidHexChars_uuid4Model (k : Nat) :
    uuidHexChars (uuid4Model k) =
      (hexDigitsLE 17 262152).reverse.map hexChar ++
        (hexDigitsLE 15 (k % 16 ^ 15)).reverse.map hexChar := by
  unfold uuidHexChars
  rw [show (32 : Nat) = 15 + 17 from rfl, hexDigitsLE_append, uuid4Model_mod,
    uuid4Model_div, List.reverse_append, List.map_append]

theorem uuidPrefix_eval :
    (hexDigitsLE 17 262152).reverse.map hexChar = "00000000000040008".data := by
  decide

theorem hexSuffix_length (k : Nat) :
    ((hexDigitsLE 15 (k % 16 ^ 15)).reverse.map hexChar).length = 15 := by
  simp [hexDigitsLE_length]

theorem hexSuffix_all (k : Nat) :
    ((hexDigitsLE 15 (k % 16 ^ 15)).reverse.map hexChar).all isHexDigit = true := by
  rw [List.all_eq_true]
  intro c hc
  rw [List.mem_map] at hc
  obtain ⟨d, hd, rfl⟩ := hc
  exact isHexDigit_hexChar d (hexDigitsLE_lt 15 _ d (List.mem_reverse.mp hd))

theorem isUuid4Hex_append (S : List Char) (hlen : S.length = 15)
    (hhex : S.all isHexDigit = true) :
    isUuid4Hex ⟨"00000000000040008".data ++ S⟩ = true := by
  have hplen : ("00000000000040008".data).length = 17 := rfl
  have hp12 : ("00000000000040008".data ++ S)[12]? = some '4' := by
    rw [List.getElem?_append, hplen, if_pos (by norm_num)]
    rfl
  have hp16 : ("00000000000040008".data ++ S)[16]? = some '8' := by
    rw [List.getElem?_append, hplen, if_pos (by norm_num)]
    rfl
  unfold isUuid4Hex
  simp only [show (String.mk ("00000000000040008".data ++ S)).data =
      "00000000000040008".data ++ S from rfl]
  rw [List.length_append, hplen, hlen, List.all_append, hhex, hp12, hp16]
  decide

theorem isUuid4Hex_uuid4Model (k : Nat) :
    isUuid4Hex (uuidHex (uuid4Model k)) = true := by
  unfold uuidHex
  rw [uuidHexChars_uuid4Model, uuidPrefix_eval]
  exact isUuid4Hex_append _ (hexSuffix_length k) (hexSuffix_all k)

theorem isUuid4Hex_ne_empty (s : String) (h : isUuid4Hex s = true) : s ≠ "" := by
  intro he
  subst he
  simp [isUuid4Hex] at h

theorem routeCapture_empty : routeCapture "" = some none := rfl

theorem routeCapture_uuid (s : String) (h : isUuid4Hex s = true) :
    routeCapture s = some (some s) := by
  unfold routeCapture
  rw [if_neg (isUuid4Hex_ne_empty s h), if_pos h]

theorem optStrTruthy_of_uuid (s : String) (h : isUuid4Hex s = true) :
    optStrTruthy (some s) = true := by
  simp [optStrTruthy, isUuid4Hex_ne_empty s h]

theorem uuid4Model_eq_iff (k1 k2 : Nat) :
    uuid4Model k1 = uuid4Model k2 ↔ k1 % 16 ^ 15 = k2 % 16 ^ 15 := by
  have h16 : (16 : Nat) ^ 15 = 1152921504606846976 := by norm_num
  unfold uuid4Model
  rw [h16]
  omega

/-! ### List-level facts about the collection operations -/

theorem find?_append_of_none {α : Type} (p : α → Bool) (l1 l2 : List α)
    (h : ∀ x ∈ l1, p x = false) : (l1 ++ l2).find? p = l2.find? p := by
  induction l1 with
  | nil => rfl
  | cons a l ih =>
    rw [List.cons_append, List.find?_cons_of_neg _ (by simp [h a (List.mem_cons_self a l)])]
    exact ih (fun x hx => h x (List.mem_cons_of_mem a hx))

theorem find?_first (p : Resource → Bool) (pre post : List Resource) (r : Resource)
    (hpre : ∀ x ∈ pre, p x = false) (hr : p r = true) :
    (pre ++ r :: post).find? p = some r := by
  rw [find?_append_of_none p pre (r :: post) hpre, List.find?_cons_of_pos _ hr]

theorem any_eraseP_of_nodup (l : List Resource) (u : Nat)
    (hnd : (l.map Resource.uuid).Nodup) :
    (l.eraseP (fun r => r.uuid == u)).any (fun r => r.uuid == u) = false := by
  induction l with
  | nil => rfl
  | cons a l ih =>
    rw [List.map_cons, List.nodup_cons] at hnd
    by_cases ha : a.uuid = u
    · rw [List.eraseP_cons_of_pos (by simp [ha])]
      rw [List.any_eq_false]
      intro x hx hxu
      rw [beq_iff_eq] at hxu
      exact hnd.1 (by rw [ha, ← hxu]; exact List.mem_map_of_mem Resource.uuid hx)
    · rw [List.eraseP_cons_of_neg (by simp [ha])]
      simp only [List.any_cons, ih hnd.2, Bool.or_false]
      simp [ha]

theorem replaceOne_of_none (l : List Resource) (u : Nat) (d : Json)
    (h : ∀ x ∈ l, (x.uuid == u) = false) : replaceOne l u d = (l, false) := by
  induction l with
  | nil => rfl
  | cons a l ih =>
    unfold replaceOne
    rw [h a (List.mem_cons_self a l), ih (fun x hx => h x (List.mem_cons_of_mem a hx))]
    simp

theorem replaceOne_first (pre post : List Resource) (r : Resource) (u : Nat) (d : Json)
    (hpre : ∀ x ∈ pre, x.uuid ≠ u) (hr : r.uuid = u) :
    replaceOne (pre ++ r :: post) u d = (pre ++ ⟨u, d⟩ :: post, true) := by
  induction pre with
  | nil =>
    simp only [List.nil_append]
    unfold replaceOne
    rw [if_pos (by simp [hr]), hr]
  | cons a pre ih =>
    simp only [List.cons_append]
    unfold replaceOne
    rw [if_neg (by simp [hpre a (List.mem_cons_self a pre)])]
    rw [ih (fun x hx => hpre x (List.mem_cons_of_mem a hx))]

/-! ### Freshness of generated identifiers -/

theorem uuidHex_inj (n1 n2 : Nat) (h1 : n1 < 16 ^ 32) (h2 : n2 < 16 ^ 32)
    (he : uuidHex n1 = uuidHex n2) : n1 = n2 := by
  have hc : uuidHexChars n1 = uuidHexChars n2 := congrArg String.data he
  have := parseHex_uuidHexChars n1 h1
  rw [hc, parseHex_uuidHexChars n2 h2] at this
  exact (Option.some_inj.mp this).symm

theorem uuidHex_uuid4Model_inj (k1 k2 : Nat) (h1 : k1 < 16 ^ 15) (h2 : k2 < 16 ^ 15)
    (he : uuidHex (uuid4Model k1) = uuidHex (uuid4Model k2)) : k1 = k2 := by
  have := uuidHex_inj _ _ (uuid4Model_lt k1) (uuid4Model_lt k2) he
  rw [uuid4Model_eq_iff, Nat.mod_eq_of_lt h1, Nat.mod_eq_of_lt h2] at this
  exact this

theorem WF_fresh (st : ServerState) (hwf : WF st) (hb : st.nextUuid < 16 ^ 15) :
    ∀ x ∈ st.collection, x.uuid ≠ uuid4Model st.nextUuid := by
  intro x hx he
  obtain ⟨k, hk, hxk⟩ := hwf.2 x hx
  rw [hxk, uuid4Model_eq_iff, Nat.mod_eq_of_lt (by omega), Nat.mod_eq_of_lt hb] at he
  omega

theorem WF_initState : WF initState := by
  constructor
  · exact List.nodup_nil
  · intro r hr
    exact absurd hr (List.not_mem_nil r)

/-! ### Evaluation lemmas for routed requests -/

theorem handleRequest_noId (st : ServerState) (m : Method) (body : Option Json) :
    handleRequest st m "" body = dispatch st m none body := rfl

theorem handleRequest_uuidTail (st : ServerState) (m : Method) (s : String)
    (body : Option Json) (h : isUuid4Hex s = true) :
    handleRequest st m s body = dispatch st m (some s) body := by
  unfold handleRequest
  rw [routeCapture_uuid s h]

theorem get_at_uuid (st : ServerState) (k : Nat) :
    CRUDRequestHandler.get st (some (uuidHex (uuid4Model k))) =
      CRUDRequestHandler.getOneDocument st (uuidHex (uuid4Model k)) := by
  unfold CRUDRequestHandler.get
  rw [optStrTruthy_of_uuid _ (isUuid4Hex_uuid4Model k)]
  rfl

theorem getOneDocument_eval (st : ServerState) (k : Nat) :
    CRUDRequestHandler.getOneDocument st (uuidHex (uuid4Model k)) =
      match st.collection.find? (fun x => x.uuid == uuid4Model k) with
      | some r =>
        match CRUDRequestHandler.writeDictOne r.document with
        | .ok b => .ok (st, b)
        | .error e => .error e
      | none => .error (.httpError 404) := by
  simp only [CRUDRequestHandler.getOneDocument, pyUUID_uuidHex _ (uuid4Model_lt k)]

theorem post_with_id_400 (st : ServerState) (s : String) (body : Option Json)
    (h : isUuid4Hex s = true) :
    handleRequest st .post s body = (st, ⟨400, errorBody 400⟩) := by
  rw [handleRequest_uuidTail st .post s body h]
  show runVerb st (CRUDRequestHandler.post st (some s) body) = _
  unfold CRUDRequestHandler.post
  rw [optStrTruthy_of_uuid s h]
  rfl

/-! ### Claims -/

/-- C2 (amended): every successful POST (identifier absent from the path,
body decodes and validates) responds 200 with body
`{"uuid": <the new identifier in canonical hex form>}` — the key the code
writes is `"uuid"`, not `"id"` — and appends the envelope. -/
theorem c2_post_success_response (st : ServerState) (d : Json) :
    handleRequest st .post "" (some d) =
      ({ collection := st.collection ++ [⟨uuid4Model st.nextUuid, d⟩],
         nextUuid := st.nextUuid + 1 },
       ⟨200, Json.obj [("uuid", Json.str (uuidHex (uuid4Model st.nextUuid)))]⟩) := rfl

/-- C2 counterexample: a successful POST responds 200, but its body has no
`"id"` key at all — the identifier is bound to the key `"uuid"`. -/
theorem c2_counterexample :
    (handleRequest initState .post "" (some (Json.obj []))).2.status = 200 ∧
    ((handleRequest initState .post "" (some (Json.obj []))).2.body).lookup "id" = none ∧
    ((handleRequest initState .post "" (some (Json.obj []))).2.body).lookup "uuid" =
      some (Json.str "00000000000040008000000000000000") := by
  exact ⟨rfl, rfl, rfl⟩

/-- C3 counterexample: a request body that is not well-formed JSON makes
POST `{prefix}` and PUT `{prefix}/{id}` respond 500 — the claim's 400,
never-500 fails (the `json.JSONDecodeError` escapes `decode_and_validate_document`
and tornado maps a non-`HTTPError` exception to 500). -/
theorem c3_counterexample :
    (handleRequest initState .post "" none).2.status = 500 ∧
    (handleRequest initState .put "00000000000040008000000000000000" none).2.status = 500 := by
  exact ⟨rfl, rfl⟩

/-- C3 (amended): for every request body that is not well-formed JSON,
POST to `{prefix}` and PUT to `{prefix}/{id}` each respond with status 500
(the JSON decode error propagates as an internal error), never 400,
and the state is unchanged. -/
theorem c3_malformed_json_500 (st : ServerState) (s : String) (h : isUuid4Hex s = true) :
    handleRequest st .post "" none = (st, ⟨500, errorBody 500⟩) ∧
    handleRequest st .put s none = (st, ⟨500, errorBody 500⟩) := by
  constructor
  · rfl
  · rw [handleRequest_uuidTail st .put s none h]
    show runVerb st (CRUDRequestHandler.put st (some s) none) = _
    unfold CRUDRequestHandler.put
    rw [optStrTruthy_of_uuid s h]
    rfl

/-- C3 (amended) witness at a concrete identifier and state. -/
theorem c3_malformed_json_500_witness :
    isUuid4Hex "00000000000040008000000000000000" = true ∧
    handleRequest initState .post "" none = (initState, ⟨500, errorBody 500⟩) ∧
    handleRequest initState .put "00000000000040008000000000000000" none =
      (initState, ⟨500, errorBody 500⟩) := by
  have h : isUuid4Hex "00000000000040008000000000000000" = true := by decide
  exact ⟨h, (c3_malformed_json_500 initState _ h).1, (c3_malformed_json_500 initState _ h).2⟩

/-- C4: POST to `{prefix}/{anyId}` — any identifier segment the route
accepts — responds 400 for every request body, and the state (hence the
collection) is unchanged: no document is inserted. -/
theorem c4_post_with_id_rejected (st : ServerState) (s : String) (body : Option Json)
    (h : isUuid4Hex s = true) :
    handleRequest st .post s body = (st, ⟨400, errorBody 400⟩) :=
  post_with_id_400 st s body h

/-- C4 witness at a concrete identifier, body and state. -/
theorem c4_post_with_id_rejected_witness :
    isUuid4Hex "00000000000040008000000000000000" = true ∧
    handleRequest initState .post "00000000000040008000000000000000" (some (Json.obj [])) =
      (initState, ⟨400, errorBody 400⟩) := by
  have h : isUuid4Hex "00000000000040008000000000000000" = true := by decide
  exact ⟨h, c4_post_with_id_rejected initState _ (some (Json.obj [])) h⟩

/-- C9 counterexample: DELETE `{prefix}` with no identifier segment responds
500 — not the claimed 400-or-404 — because `delete` applies `UUID(None)`,
whose `TypeError` tornado maps to 500. -/
theorem c9_counterexample :
    (handleRequest initState .delete "" none).2.status = 500 := rfl

/-- C9 (amended): method/path combinations outside the five verb contracts
respond 400 (POST with an identifier, PUT without one) or a routing-level
404 (path not matching the route pattern) — except DELETE `{prefix}` with no
identifier segment, which responds 500 (`TypeError` from `UUID(None)`). -/
theorem c9_other_routes (st : ServerState) (s tail : String) (body : Option Json)
    (m : Method) (h : isUuid4Hex s = true) (hmiss : routeCapture tail = none) :
    handleRequest st .post s body = (st, ⟨400, errorBody 400⟩) ∧
    handleRequest st .put "" body = (st, ⟨400, errorBody 400⟩) ∧
    handleRequest st .delete "" body = (st, ⟨500, errorBody 500⟩) ∧
    handleRequest st m tail body = (st, ⟨404, errorBody 404⟩) := by
  refine ⟨post_with_id_400 st s body h, rfl, rfl, ?_⟩
  unfold handleRequest
  rw [hmiss]

/-- C9 (amended) witness at concrete inputs. -/
theorem c9_other_routes_witness :
    isUuid4Hex "00000000000040008000000000000000" = true ∧
    routeCapture "zz" = none ∧
    handleRequest initState .delete "" none = (initState, ⟨500, errorBody 500⟩) ∧
    handleRequest initState .get "zz" none = (initState, ⟨404, errorBody 404⟩) := by
  have h : isUuid4Hex "00000000000040008000000000000000" = true := by decide
  have hm : routeCapture "zz" = none := by decide
  exact ⟨h, hm, (c9_other_routes initState _ "zz" none .get h hm).2.2.1,
    (c9_other_routes initState _ "zz" none .get h hm).2.2.2⟩

/-- C10: a stored resource whose document is not a JSON object cannot be
fetched with 200: `write_dict` raises `ValueError` on any non-dict single
value, so GET `{prefix}/{id}` responds 500. -/
theorem c10_get_nonobject_500 (st : ServerState) (k : Nat) (r : Resource)
    (hfind : st.collection.find? (fun x => x.uuid == uuid4Model k) = some r)
    (hdoc : r.document.isObj = false) :
    handleRequest st .get (uuidHex (uuid4Model k)) none = (st, ⟨500, errorBody 500⟩) := by
  rw [handleRequest_uuidTail st .get _ none (isUuid4Hex_uuid4Model k)]
  show runVerb st (CRUDRequestHandler.get st (some (uuidHex (uuid4Model k)))) = _
  rw [get_at_uuid, getOneDocument_eval, hfind]
  show runVerb st
      (match CRUDRequestHandler.writeDictOne r.document with
       | .ok b => .ok (st, b)
       | .error e => .error e) = _
  unfold CRUDRequestHandler.writeDictOne
  rw [hdoc]
  rfl

/-- C10 witness: a stored JSON array document makes GET respond 500. -/
theorem c10_get_nonobject_500_witness :
    (⟨[⟨uuid4Model 0, Json.arr []⟩], 1⟩ : ServerState).collection.find?
        (fun x => x.uuid == uuid4Model 0) = some ⟨uuid4Model 0, Json.arr []⟩ ∧
    (Json.arr []).isObj = false ∧
    handleRequest ⟨[⟨uuid4Model 0, Json.arr []⟩], 1⟩ .get (uuidHex (uuid4Model 0)) none =
      (⟨[⟨uuid4Model 0, Json.arr []⟩], 1⟩, ⟨500, errorBody 500⟩) := by
  refine ⟨List.find?_cons_of_pos _ (by decide), rfl, ?_⟩
  exact c10_get_nonobject_500 ⟨[⟨uuid4Model 0, Json.arr []⟩], 1⟩ 0 ⟨uuid4Model 0, Json.arr []⟩
    (List.find?_cons_of_pos _ (by decide)) rfl

theorem get_found_object (st : ServerState) (k : Nat) (fields : List (String × Json))
    (hfind : st.collection.find? (fun x => x.uuid == uuid4Model k) =
      some ⟨uuid4Model k, Json.obj fields⟩) :
    handleRequest st .get (uuidHex (uuid4Model k)) none = (st, ⟨200, Json.obj fields⟩) := by
  rw [handleRequest_uuidTail st .get _ none (isUuid4Hex_uuid4Model k)]
  show runVerb st (CRUDRequestHandler.get st (some (uuidHex (uuid4Model k)))) = _
  rw [get_at_uuid, getOneDocument_eval, hfind]
  rfl

/-- C1 counterexample: `[]` is a valid JSON document, POST of it succeeds
(200), but GET of the returned identifier responds 500, not 200 with `[]`
as the body — `write_dict` rejects the non-dict value. -/
theorem c1_counterexample :
    (handleRequest initState .post "" (some (Json.arr []))).2.status = 200 ∧
    (handleRequest (handleRequest initState .post "" (some (Json.arr []))).1 .get
        "00000000000040008000000000000000" none).2.status = 500 := by
  exact ⟨rfl, rfl⟩

/-- C1 (amended): for every JSON **object** document d, POST of d to the
bare prefix followed by GET of the returned identifier responds 200 with
exactly d as the body (the round trip holds for JSON objects; a non-object
document is stored but its GET fails with 500). -/
theorem c1_post_get_roundtrip (st : ServerState) (fields : List (String × Json))
    (hwf : WF st) (hb : st.nextUuid < 16 ^ 15) :
    (handleRequest st .post "" (some (Json.obj fields))).2 =
      ⟨200, Json.obj [("uuid", Json.str (uuidHex (uuid4Model st.nextUuid)))]⟩ ∧
    (handleRequest (handleRequest st .post "" (some (Json.obj fields))).1 .get
        (uuidHex (uuid4Model st.nextUuid)) none).2 = ⟨200, Json.obj fields⟩ := by
  refine ⟨rfl, ?_⟩
  have hfresh : ∀ x ∈ st.collection, (x.uuid == uuid4Model st.nextUuid) = false := by
    intro x hx
    rw [beq_eq_false_iff_ne]
    exact WF_fresh st hwf hb x hx
  have hfind : ((handleRequest st .post "" (some (Json.obj fields))).1).collection.find?
      (fun x => x.uuid == uuid4Model st.nextUuid) =
        some ⟨uuid4Model st.nextUuid, Json.obj fields⟩ := by
    show (st.collection ++ [(⟨uuid4Model st.nextUuid, Json.obj fields⟩ : Resource)]).find?
        (fun x => x.uuid == uuid4Model st.nextUuid) = _
    rw [find?_append_of_none _ st.collection _ hfresh]
    exact List.find?_cons_of_pos _ (by simp)
  rw [get_found_object _ st.nextUuid fields hfind]

/-- C1 (amended) witness: round trip of the empty JSON object from the
fresh state. -/
theorem c1_post_get_roundtrip_witness :
    WF initState ∧ initState.nextUuid < 16 ^ 15 ∧
    (handleRequest initState .post "" (some (Json.obj []))).2 =
      ⟨200, Json.obj [("uuid", Json.str (uuidHex (uuid4Model 0)))]⟩ ∧
    (handleRequest (handleRequest initState .post "" (some (Json.obj []))).1 .get
        (uuidHex (uuid4Model 0)) none).2 = ⟨200, Json.obj []⟩ := by
  have hb : initState.nextUuid < 16 ^ 15 := by norm_num [initState]
  exact ⟨WF_initState, hb, (c1_post_get_roundtrip initState [] WF_initState hb).1,
    (c1_post_get_roundtrip initState [] WF_initState hb).2⟩

theorem delete_eval (st : ServerState) (k : Nat) :
    CRUDRequestHandler.delete st (some (uuidHex (uuid4Model k))) =
      (if st.collection.any (fun r => r.uuid == uuid4Model k) then
        .ok ({ st with collection := st.collection.eraseP (fun r => r.uuid == uuid4Model k) },
             Json.obj [])
      else .error (.httpError 404)) := by
  unfold CRUDRequestHandler.delete
  rw [pyUUID_uuidHex _ (uuid4Model_lt k)]

/-- C5: on a well-formed state holding a resource with identifier
`uuid4Model k`, the first DELETE responds 200 with `{}` and removes that
resource from the collection; the second DELETE of the same identifier
responds 404 and leaves the state unchanged. -/
theorem c5_delete_twice (st : ServerState) (k : Nat) (hwf : WF st)
    (hex : st.collection.any (fun r => r.uuid == uuid4Model k) = true) :
    handleRequest st .delete (uuidHex (uuid4Model k)) none =
      (⟨st.collection.eraseP (fun r => r.uuid == uuid4Model k), st.nextUuid⟩,
       ⟨200, Json.obj []⟩) ∧
    handleRequest (⟨st.collection.eraseP (fun r => r.uuid == uuid4Model k),
        st.nextUuid⟩ : ServerState) .delete (uuidHex (uuid4Model k)) none =
      (⟨st.collection.eraseP (fun r => r.uuid == uuid4Model k), st.nextUuid⟩,
       ⟨404, errorBody 404⟩) := by
  have hgone : (st.collection.eraseP (fun r => r.uuid == uuid4Model k)).any
      (fun r => r.uuid == uuid4Model k) = false := any_eraseP_of_nodup _ _ hwf.1
  constructor
  · rw [handleRequest_uuidTail _ .delete _ none (isUuid4Hex_uuid4Model k)]
    show runVerb st (CRUDRequestHandler.delete st (some (uuidHex (uuid4Model k)))) = _
    rw [delete_eval, if_pos hex]
    rfl
  · rw [handleRequest_uuidTail _ .delete _ none (isUuid4Hex_uuid4Model k)]
    show runVerb _ (CRUDRequestHandler.delete
      (⟨st.collection.eraseP (fun r => r.uuid == uuid4Model k), st.nextUuid⟩ : ServerState)
      (some (uuidHex (uuid4Model k)))) = _
    rw [delete_eval, if_neg (by simp [hgone])]
    rfl

/-- C5 witness: delete the single stored resource twice. -/
theorem c5_delete_twice_witness :
    WF ⟨[⟨uuid4Model 0, Json.obj []⟩], 1⟩ ∧
    (⟨[⟨uuid4Model 0, Json.obj []⟩], 1⟩ : ServerState).collection.any
        (fun r => r.uuid == uuid4Model 0) = true ∧
    (handleRequest ⟨[⟨uuid4Model 0, Json.obj []⟩], 1⟩ .delete
        (uuidHex (uuid4Model 0)) none).2 = ⟨200, Json.obj []⟩ ∧
    (handleRequest (⟨[], 1⟩ : ServerState) .delete (uuidHex (uuid4Model 0)) none).2 =
      ⟨404, errorBody 404⟩ := by
  have hwf : WF ⟨[⟨uuid4Model 0, Json.obj []⟩], 1⟩ := by
    refine ⟨by decide, ?_⟩
    intro r hr
    rw [List.mem_singleton] at hr
    exact ⟨0, Nat.zero_lt_one, by rw [hr]⟩
  have hex : (⟨[⟨uuid4Model 0, Json.obj []⟩], 1⟩ : ServerState).collection.any
      (fun r => r.uuid == uuid4Model 0) = true := by decide
  exact ⟨hwf, hex, congrArg Prod.snd (c5_delete_twice _ 0 hwf hex).1,
    congrArg Prod.snd (c5_delete_twice _ 0 hwf hex).2⟩

theorem put_eval (st : ServerState) (k : Nat) (d : Json) :
    CRUDRequestHandler.put st (some (uuidHex (uuid4Model k))) (some d) =
      (let p := replaceOne st.collection (uuid4Model k) d
       if p.2 then .ok ({ st with collection := p.1 }, Json.obj [])
       else .error (.httpError 404)) := by
  unfold CRUDRequestHandler.put
  rw [optStrTruthy_of_uuid _ (isUuid4Hex_uuid4Model k),
    pyUUID_uuidHex _ (uuid4Model_lt k)]
  rfl

/-- C6 counterexample: PUT of the valid JSON document `[]` over an existing
resource responds 200, but the subsequent GET responds 500 rather than
returning the new document — the "subsequent GET returns the new document"
clause fails for non-object documents. -/
theorem c6_counterexample :
    (handleRequest ⟨[⟨uuid4Model 0, Json.obj []⟩], 1⟩ .put (uuidHex (uuid4Model 0))
        (some (Json.arr []))).2.status = 200 ∧
    (handleRequest (handleRequest ⟨[⟨uuid4Model 0, Json.obj []⟩], 1⟩ .put
        (uuidHex (uuid4Model 0)) (some (Json.arr []))).1 .get
        (uuidHex (uuid4Model 0)) none).2.status = 500 := by
  exact ⟨rfl, rfl⟩

/-- C6 (amended): PUT with an identifier never stored responds 404 and
changes nothing; PUT over an existing resource replaces the stored document
wholly, responds 200 with `{}`, and a subsequent GET returns the new
document whenever it is a JSON object (a non-object replacement makes the
subsequent GET fail with 500); PUT with the identifier segment absent
responds 400. -/
theorem c6_put_contract (st : ServerState) (k : Nat) (d' : Json) :
    (st.collection.any (fun r => r.uuid == uuid4Model k) = false →
      handleRequest st .put (uuidHex (uuid4Model k)) (some d') =
        (st, ⟨404, errorBody 404⟩)) ∧
    (∀ pre r post, st.collection = pre ++ r :: post →
      (∀ x ∈ pre, x.uuid ≠ uuid4Model k) → r.uuid = uuid4Model k →
      handleRequest st .put (uuidHex (uuid4Model k)) (some d') =
        (⟨pre ++ ⟨uuid4Model k, d'⟩ :: post, st.nextUuid⟩, ⟨200, Json.obj []⟩) ∧
      (∀ fields, d' = Json.obj fields →
        (handleRequest (⟨pre ++ ⟨uuid4Model k, d'⟩ :: post, st.nextUuid⟩ : ServerState)
            .get (uuidHex (uuid4Model k)) none).2 = ⟨200, d'⟩)) ∧
    (∀ body, handleRequest st .put "" body = (st, ⟨400, errorBody 400⟩)) := by
  refine ⟨?_, ?_, fun body => rfl⟩
  · intro habs
    have hnone : ∀ x ∈ st.collection, (x.uuid == uuid4Model k) = false := by
      intro x hx
      have := List.any_eq_false.mp habs x hx
      simpa using this
    rw [handleRequest_uuidTail _ .put _ _ (isUuid4Hex_uuid4Model k)]
    show runVerb st (CRUDRequestHandler.put st (some (uuidHex (uuid4Model k))) (some d')) = _
    rw [put_eval]
    rw [replaceOne_of_none st.collection (uuid4Model k) d' hnone]
    rfl
  · intro pre r post hsplit hpre hr
    have hrepl : replaceOne st.collection (uuid4Model k) d' =
        (pre ++ ⟨uuid4Model k, d'⟩ :: post, true) := by
      rw [hsplit]
      exact replaceOne_first pre post r (uuid4Model k) d' hpre hr
    constructor
    · rw [handleRequest_uuidTail _ .put _ _ (isUuid4Hex_uuid4Model k)]
      show runVerb st (CRUDRequestHandler.put st (some (uuidHex (uuid4Model k))) (some d')) = _
      rw [put_eval, hrepl]
      rfl
    · intro fields hfields
      subst hfields
      have hfind : ((⟨pre ++ ⟨uuid4Model k, Json.obj fields⟩ :: post, st.nextUuid⟩ :
          ServerState)).collection.find? (fun x => x.uuid == uuid4Model k) =
            some ⟨uuid4Model k, Json.obj fields⟩ := by
        show (pre ++ ⟨uuid4Model k, Json.obj fields⟩ :: post).find?
            (fun x => x.uuid == uuid4Model k) = _
        exact find?_first _ pre post _ (fun x hx => by simpa using hpre x hx) (by simp)
      rw [get_found_object _ k fields hfind]

/-- C6 (amended) witness on concrete states: 404 on the empty collection,
whole replacement with 200 and the follow-up GET, and 400 without an
identifier segment. -/
theorem c6_put_contract_witness :
    (⟨[], 0⟩ : ServerState).collection.any (fun r => r.uuid == uuid4Model 0) = false ∧
    handleRequest ⟨[], 0⟩ .put (uuidHex (uuid4Model 0)) (some (Json.obj [])) =
      (⟨[], 0⟩, ⟨404, errorBody 404⟩) ∧
    handleRequest ⟨[⟨uuid4Model 0, Json.null⟩], 1⟩ .put (uuidHex (uuid4Model 0))
        (some (Json.obj [])) =
      (⟨[⟨uuid4Model 0, Json.obj []⟩], 1⟩, ⟨200, Json.obj []⟩) ∧
    (handleRequest (⟨[⟨uuid4Model 0, Json.obj []⟩], 1⟩ : ServerState) .get
        (uuidHex (uuid4Model 0)) none).2 = ⟨200, Json.obj []⟩ ∧
    handleRequest ⟨[], 0⟩ .put "" none = (⟨[], 0⟩, ⟨400, errorBody 400⟩) := by
  have h2 := (c6_put_contract ⟨[⟨uuid4Model 0, Json.null⟩], 1⟩ 0 (Json.obj [])).2.1
    [] ⟨uuid4Model 0, Json.null⟩ [] rfl
    (fun x hx => absurd hx (List.not_mem_nil x)) rfl
  exact ⟨rfl, (c6_put_contract ⟨[], 0⟩ 0 (Json.obj [])).1 rfl, h2.1, h2.2 [] rfl,
    (c6_put_contract ⟨[], 0⟩ 0 (Json.obj [])).2.2 none⟩

/-- C7: a successful PUT changes only the document value of the targeted
resource: every other stored resource is untouched, the targeted resource
keeps its identifier field (`uuid`), and the identifier supply is
unchanged. -/
theorem c7_put_preserves_identifier (st : ServerState) (k : Nat) (d' : Json)
    (pre post : List Resource) (r : Resource)
    (hsplit : st.collection = pre ++ r :: post)
    (hpre : ∀ x ∈ pre, x.uuid ≠ uuid4Model k) (hr : r.uuid = uuid4Model k) :
    handleRequest st .put (uuidHex (uuid4Model k)) (some d') =
      (⟨pre ++ ⟨r.uuid, d'⟩ :: post, st.nextUuid⟩, ⟨200, Json.obj []⟩) := by
  have hrepl : replaceOne st.collection (uuid4Model k) d' =
      (pre ++ ⟨r.uuid, d'⟩ :: post, true) := by
    rw [hsplit, hr]
    exact replaceOne_first pre post r (uuid4Model k) d' hpre hr
  rw [handleRequest_uuidTail _ .put _ _ (isUuid4Hex_uuid4Model k)]
  show runVerb st (CRUDRequestHandler.put st (some (uuidHex (uuid4Model k))) (some d')) = _
  rw [put_eval, hrepl]
  rfl

/-- C7 witness: replacing the second of two stored documents leaves the
first resource and both identifiers unchanged. -/
theorem c7_put_preserves_identifier_witness :
    (⟨[⟨uuid4Model 0, Json.null⟩, ⟨uuid4Model 1, Json.bool true⟩], 2⟩ :
        ServerState).collection =
      [⟨uuid4Model 0, Json.null⟩] ++ ⟨uuid4Model 1, Json.bool true⟩ :: [] ∧
    (⟨uuid4Model 1, Json.bool true⟩ : Resource).uuid = uuid4Model 1 ∧
    handleRequest ⟨[⟨uuid4Model 0, Json.null⟩, ⟨uuid4Model 1, Json.bool true⟩], 2⟩ .put
        (uuidHex (uuid4Model 1)) (some (Json.num 7)) =
      (⟨[⟨uuid4Model 0, Json.null⟩, ⟨uuid4Model 1, Json.num 7⟩], 2⟩,
       ⟨200, Json.obj []⟩) := by
  refine ⟨rfl, rfl, ?_⟩
  exact c7_put_preserves_identifier
    ⟨[⟨uuid4Model 0, Json.null⟩, ⟨uuid4Model 1, Json.bool true⟩], 2⟩ 1 (Json.num 7)
    [⟨uuid4Model 0, Json.null⟩] [] ⟨uuid4Model 1, Json.bool true⟩ rfl
    (by intro x hx
        rw [List.mem_singleton] at hx
        rw [hx]
        decide) rfl

theorem postMany_spec (st : ServerState) (ds : List Json) :
    postMany st ds =
      ⟨st.collection ++ (ds.enumFrom st.nextUuid).map (fun p => ⟨uuid4Model p.1, p.2⟩),
       st.nextUuid + ds.length⟩ := by
  induction ds generalizing st with
  | nil =>
    show st = _
    cases st
    simp [List.enumFrom]
  | cons d ds ih =>
    show postMany ⟨st.collection ++ [⟨uuid4Model st.nextUuid, d⟩], st.nextUuid + 1⟩ ds = _
    rw [ih]
    show (⟨(st.collection ++ [⟨uuid4Model st.nextUuid, d⟩]) ++
        (ds.enumFrom (st.nextUuid + 1)).map (fun p => ⟨uuid4Model p.1, p.2⟩),
        st.nextUuid + 1 + ds.length⟩ : ServerState) = _
    rw [List.append_assoc]
    show (⟨st.collection ++ (⟨uuid4Model st.nextUuid, d⟩ ::
        (ds.enumFrom (st.nextUuid + 1)).map (fun p => ⟨uuid4Model p.1, p.2⟩)),
        st.nextUuid + 1 + ds.length⟩ : ServerState) = _
    have hlen : st.nextUuid + 1 + ds.length = st.nextUuid + (d :: ds).length := by
      simp [List.length_cons]
      omega
    rw [hlen]
    rfl

theorem enumFrom_keys_nodup (ds : List Json) (n : Nat) (hn : n + ds.length ≤ 16 ^ 15) :
    ((ds.enumFrom n).map (fun p => uuidHex (uuid4Model p.1))).Nodup := by
  induction ds generalizing n with
  | nil => exact List.nodup_nil
  | cons d ds ih =>
    rw [show (d :: ds).enumFrom n = (n, d) :: ds.enumFrom (n + 1) from rfl,
      List.map_cons, List.nodup_cons]
    constructor
    · intro hmem
      rw [List.mem_map] at hmem
      obtain ⟨⟨i, x⟩, hp, he⟩ := hmem
      have hb := List.mem_enumFrom hp
      have hlen : (d :: ds).length = ds.length + 1 := List.length_cons d ds
      have hi : i = n := uuidHex_uuid4Model_inj i n (by omega) (by omega) he
      omega
    · exact ih (n + 1) (by rw [List.length_cons] at hn; omega)

/-- C8: after N successful POSTs from a fresh state and no DELETEs,
GET on the bare prefix responds 200 with a JSON mapping of exactly N
entries: the k-th entry's key is the canonical hex string of the k-th
generated identifier and its value is the k-th posted document; all keys
are pairwise distinct. -/
theorem c8_list_after_posts (ds : List Json) (hN : ds.length ≤ 16 ^ 15) :
    handleRequest (postMany initState ds) .get "" none =
      (postMany initState ds,
       ⟨200, Json.obj ((ds.enumFrom 0).map
          (fun p => (uuidHex (uuid4Model p.1), p.2)))⟩) ∧
    ((ds.enumFrom 0).map (fun p => (uuidHex (uuid4Model p.1), p.2))).length = ds.length ∧
    (((ds.enumFrom 0).map (fun p => (uuidHex (uuid4Model p.1), p.2))).map
      Prod.fst).Nodup := by
  refine ⟨?_, ?_, ?_⟩
  · have hcoll : (postMany initState ds).collection =
        (ds.enumFrom 0).map (fun p => ⟨uuid4Model p.1, p.2⟩) := by
      rw [postMany_spec]
      rfl
    have hmany : handleRequest (postMany initState ds) .get "" none =
        (postMany initState ds,
         ⟨200, Json.obj ((postMany initState ds).collection.map
            (fun r => (uuidHex r.uuid, r.document)))⟩) := rfl
    rw [hmany, hcoll, List.map_map]
    rfl
  · rw [List.length_map, List.enumFrom_length]
  · rw [List.map_map]
    exact enumFrom_keys_nodup ds 0 (by omega)

/-- C8 witness: two POSTs, then the listing has the two entries in
insertion order under distinct hex keys. -/
theorem c8_list_after_posts_witness :
    ([Json.null, Json.obj []] : List Json).length ≤ 16 ^ 15 ∧
    (handleRequest (postMany initState [Json.null, Json.obj []]) .get "" none).2 =
      ⟨200, Json.obj [(uuidHex (uuid4Model 0), Json.null),
                      (uuidHex (uuid4Model 1), Json.obj [])]⟩ := by
  have hN : ([Json.null, Json.obj []] : List Json).length ≤ 16 ^ 15 := by norm_num
  exact ⟨hN, congrArg Prod.snd (c8_list_after_posts [Json.null, Json.obj []] hN).1⟩
